import Mathlib

/-!
Shallow embedding of the core routing/geocoding pipeline of
`src/grapphopper.py` (the GraphHopper route planner): hit display-name
formatting, geocoding candidate resolution, route request construction and
response classification, duration formatting and distance-summary math,
together with the waypoint-count guard of the GUI front end.

Python dictionaries with optional keys become structures with `Option`
fields; JSON numbers become `Rat` (coordinates, distances) or `Nat`
(millisecond durations); the network round trip becomes an explicit oracle
argument `net`, and each embedded operation additionally returns the list
of requests it issued, so that claims about "no network call" are
expressible.
-/

set_option autoImplicit false
set_option maxRecDepth 8000

/-- The apiKey constant of line 24 of the source (default value of the
environment lookup). -/
def GRAPHOPPER_KEY : String := "6c57578b-b515-4eac-9303-166acf4ca72b"

/-- Drop leading and trailing whitespace from a character list. -/
def stripChars (l : List Char) : List Char :=
  ((l.dropWhile Char.isWhitespace).reverse.dropWhile Char.isWhitespace).reverse

/-- Embedding of the Python `str.strip()` method: remove leading and
trailing whitespace. -/
def pyStrip (s : String) : String := String.mk (stripChars s.data)

/-- Embedding of the Python slice `s[:n]`: the first `n` characters. -/
def strTake (s : String) (n : Nat) : String := String.mk (s.data.take n)

/-- Outcome of one `requests.get` call: either an HTTP response (status
code, raw text, parsed JSON body) or a raised `RequestException` carrying a
message. -/
inductive NetResult (β : Type) where
  | response (status : Nat) (text : String) (body : β)
  | exn (msg : String)

/-- The `point` object of a raw geocoding hit: both coordinates optional
(`pt.get("lat")` / `pt.get("lng")` may be `None`). -/
structure RawPoint where
  lat : Option ℚ
  lng : Option ℚ
deriving DecidableEq

/-- One raw hit of the geocoding response JSON: every field optional. -/
structure RawHit where
  name : Option String
  city : Option String
  state : Option String
  country : Option String
  point : Option RawPoint
deriving DecidableEq

/-- Parsed body of the geocoding response: the `hits` array may be absent. -/
structure GeoData where
  hits : Option (List RawHit)
deriving DecidableEq

/-- One element of the `hits` list returned by `geocode_suggestions`
(line 57): the formatted name together with the raw optional coordinates
`pt.get("lat")` and `pt.get("lng")` (non-`None` by the guard of line 55). -/
structure GeoHit where
  name : String
  lat : Option ℚ
  lng : Option ℚ
deriving DecidableEq

/-- The result dictionary of `geocode_suggestions`. -/
structure GeoResult where
  ok : Bool
  hits : List GeoHit
  msg : String
deriving DecidableEq

/-- The query parameters sent to the geocoding endpoint (line 44). -/
structure GeoRequest where
  q : String
  limit : Int
  key : String
deriving DecidableEq

/-- Embedding of `", ".join(parts)` (Python `str.join` with a separator). -/
def joinSep (sep : String) : List String → String
  | [] => ""
  | [x] => x
  | x :: y :: xs => x ++ sep ++ joinSep sep (y :: xs)

/-- Embedding of `_format_hit_display` (lines 28-34): take `name` with the
fallback substituted when the key is absent, join the non-empty values of
name/city/state/country with a comma, and fall back to `name or
fallback_name` when the join is empty. -/
def format_hit_display (hit : RawHit) (fallback_name : String) : String :=
  let name := hit.name.getD fallback_name
  let city := hit.city.getD ""
  let state := hit.state.getD ""
  let country := hit.country.getD ""
  let parts := [name, city, state, country].filter (fun v => v != "")
  let joined := joinSep ", " parts
  if joined != "" then joined else (if name != "" then name else fallback_name)

/-- The limit actually placed in the geocoding request, line 44:
`max(1, min(10, int(limit or 5)))`. Note `limit or 5` in Python replaces a
falsy limit (zero) by the default 5. -/
def clampedLimit (limit : Int) : Int :=
  max 1 (min 10 (if limit = 0 then 5 else limit))

/-- The `pt` dictionary of line 53: `h.get("point", {}) or {}`. -/
def hitPoint (h : RawHit) : RawPoint := h.point.getD ⟨none, none⟩

/-- The guard of line 55: a raw hit survives iff neither coordinate is
`None`. -/
def hasCoords (h : RawHit) : Bool :=
  (hitPoint h).lat.isSome && (hitPoint h).lng.isSome

/-- The dictionary appended at line 57 for one surviving raw hit. -/
def mkGeoHit (q : String) (h : RawHit) : GeoHit :=
  { name := format_hit_display h q
    lat := (hitPoint h).lat
    lng := (hitPoint h).lng }

/-- Embedding of `geocode_suggestions` (lines 36-62). The second component
of the result is the list of network requests issued, in order. -/
def geocode_suggestions (query : String) (limit : Int)
    (net : GeoRequest → NetResult GeoData) : GeoResult × List GeoRequest :=
  let q := pyStrip query
  if q = "" then
    ({ ok := false, hits := [], msg := "Empty location." }, [])
  else
    let req : GeoRequest := { q := q, limit := clampedLimit limit, key := GRAPHOPPER_KEY }
    match net req with
    | .exn e =>
        ({ ok := false, hits := [], msg := "Geocode error: " ++ e }, [req])
    | .response status text body =>
        if status ≠ 200 then
          ({ ok := false, hits := []
             msg := "Geocode HTTP " ++ toString status ++ ": " ++ strTake text 200 }, [req])
        else
          let hits := ((body.hits.getD []).filter hasCoords).map (mkGeoHit q)
          if hits = [] then
            ({ ok := false, hits := []
               msg := "No geocoding results for \x27" ++ q ++ "\x27." }, [req])
          else
            ({ ok := true, hits := hits, msg := "" }, [req])

/-- One step of a path `instructions` array: both fields optional. -/
structure RouteInstr where
  text : Option String
  distance : Option ℚ
deriving DecidableEq

/-- One element of the routing response `paths` array. -/
structure RoutePath where
  distance : ℚ
  time : Nat
  profile : Option String
  instructions : List RouteInstr
deriving DecidableEq

/-- Parsed body of the routing response: the `paths` array may be absent. -/
structure RouteData where
  paths : Option (List RoutePath)
deriving DecidableEq

/-- The result dictionary of `route_points`: the `data` key is present only
on success. -/
structure RouteResult where
  ok : Bool
  data : Option RouteData
  msg : String
deriving DecidableEq

/-- Python truthiness of `data.get("paths")` at line 99: false when the key
is absent or the array is empty. -/
def truthyPaths (d : RouteData) : Bool :=
  match d.paths with
  | none => false
  | some l => !l.isEmpty

/-- The f-string of line 93: one `point` parameter value per waypoint. -/
def coordStr (lat lng : ℚ) : String := toString lat ++ "," ++ toString lng

/-- The full ordered parameter list of the routing request (lines 90-95):
the three fixed parameters followed by one `point` parameter per waypoint
in input order. -/
def routeParams (points : List (ℚ × ℚ)) (vehicle : String) : List (String × String) :=
  [("key", GRAPHOPPER_KEY), ("vehicle", vehicle), ("points_encoded", "false")]
    ++ points.map (fun p => ("point", coordStr p.1 p.2))

/-- Embedding of `route_points` (lines 88-103). The second component of the
result is the list of network requests issued, in order. -/
def route_points (points : List (ℚ × ℚ)) (vehicle : String)
    (net : List (String × String) → NetResult RouteData) :
    RouteResult × List (List (String × String)) :=
  let params := routeParams points vehicle
  match net params with
  | .exn e =>
      ({ ok := false, data := none, msg := "Route error: " ++ e }, [params])
  | .response status text body =>
      if status ≠ 200 then
        ({ ok := false, data := none
           msg := "Route HTTP " ++ toString status ++ ": " ++ strTake text 200 }, [params])
      else if truthyPaths body = false then
        ({ ok := false, data := none, msg := "No route found for the given points." }, [params])
      else
        ({ ok := true, data := some body, msg := "" }, [params])

/-- Python `f"{n:02d}"` for a natural number: zero-pad to width 2. -/
def pad2 (n : Nat) : String :=
  if n < 10 then "0" ++ toString n else toString n

/-- Embedding of `format_duration` (lines 105-109): floor to whole seconds,
then `divmod` by 3600 and by 60. -/
def format_duration (ms : Nat) : String :=
  let s := ms / 1000
  let h := s / 3600
  let s1 := s % 3600
  let m := s1 / 60
  let s2 := s1 % 60
  pad2 h ++ ":" ++ pad2 m ++ ":" ++ pad2 s2

/-- The fixed miles-per-kilometre divisor 1.60934 of line 115, as an exact
rational. -/
def MILE_FACTOR : ℚ := 160934 / 100000

/-- The kilometre figure of the route summary (line 114). -/
def summary_km (p : RoutePath) : ℚ := p.distance / 1000

/-- The miles figure of the route summary (line 115). -/
def summary_miles (p : RoutePath) : ℚ := summary_km p / MILE_FACTOR

/-- The per-step kilometre figure of `print_instructions` (line 129):
`step.get("distance", 0) / 1000.0`, a function of the step alone. -/
def instruction_km (s : RouteInstr) : ℚ := s.distance.getD 0 / 1000

/-- Rounding to two decimal places as the `%.2f` format of the summary
displays it (round to nearest, exact on the values at stake). -/
def round2 (q : ℚ) : ℚ := (⌊q * 100 + 1 / 2⌋ : ℚ) / 100

/-- One entry of `self.locations` in the GUI (line 255). -/
structure GuiLocation where
  name : String
  lat : ℚ
  lng : ℚ
deriving DecidableEq

/-- The waypoint-count guard of `RoutePlannerGUI.calculate_route`
(lines 670-677): with fewer than 2 locations it warns and returns `none`
(no call to `route_points`); otherwise it yields the coordinate and name
lists passed on to `route_points`. -/
def calculate_route (locations : List GuiLocation) :
    Option (List (ℚ × ℚ) × List String) :=
  if locations.length < 2 then none
  else some (locations.map (fun l => (l.lat, l.lng)), locations.map (fun l => l.name))

/-- Display-name construction exactly as the claim words it: join the
non-empty values among the four hit fields; if all four are empty, fall
back to the original query text, then to the raw name field. Stated for
comparison with `format_hit_display`, the function the code implements. -/
def formatHitDisplayClaimed (hit : RawHit) (query : String) : String :=
  let parts := [hit.name.getD "", hit.city.getD "", hit.state.getD "",
    hit.country.getD ""].filter (fun v => v != "")
  if parts ≠ [] then joinSep ", " parts
  else if query != "" then query
  else hit.name.getD ""

/-- Display-name construction as the code actually behaves: the name field
with the query substituted when the name key is absent, joined with the
other non-empty fields; the query when everything is empty. -/
def formatHitDisplayAmended (hit : RawHit) (query : String) : String :=
  let name := hit.name.getD query
  let parts := [name, hit.city.getD "", hit.state.getD "",
    hit.country.getD ""].filter (fun v => v != "")
  if parts = [] then query else joinSep ", " parts

/-- A raw hit carrying only a city, used to separate the code from the
claimed display-name formula. -/
def hitCityOnly : RawHit :=
  { name := none, city := some "Y", state := none, country := none, point := none }

/-- A geocoding network oracle that always raises, for concrete
instantiations that never reach the network layer. -/
def geoNetEx : GeoRequest → NetResult GeoData := fun _ => .exn "boom"

/-- A geocoding response body with one fully-coordinated hit. -/
def geoBodyOne : GeoData :=
  ⟨some [⟨some "Paris", none, none, some "France", some ⟨some 1, some 2⟩⟩]⟩

/-- A routing path used in concrete instantiations. -/
def onePath : RoutePath :=
  { distance := 1000, time := 60000, profile := none, instructions := [] }

/-- A routing network oracle that always answers 200 with one path. -/
def routeNetOk : List (String × String) → NetResult RouteData :=
  fun _ => .response 200 "" { paths := some [onePath] }

/-- The RoutePath of the distance-conversion example: 10000 metres. -/
def demoPath : RoutePath :=
  { distance := 10000, time := 0, profile := none, instructions := [] }

/-- A nonempty string stays nonempty after appending on the right. -/
theorem str_append_ne_empty (s t : String) (h : s ≠ "") : s ++ t ≠ "" := by
  intro hc
  apply h
  have hd := congrArg String.data hc
  rw [String.data_append] at hd
  rcases List.append_eq_nil.mp hd with ⟨h1, _⟩
  exact String.ext h1

/-- Claim C6: for every non-negative millisecond count `ms`,
`format_duration ms` truncates to whole seconds and decomposes them by
integer division into hours, minutes and seconds, each zero-padded to
width 2 and joined as HH:MM:SS; in particular 3661000 ms gives "01:01:01",
0 ms gives "00:00:00", and 59999 ms gives "00:00:59" (truncation, not
rounding). -/
theorem c6_format_duration_scheme (ms : Nat) :
    format_duration ms =
      pad2 (ms / 1000 / 3600) ++ ":" ++ pad2 (ms / 1000 % 3600 / 60) ++ ":" ++
        pad2 (ms / 1000 % 60) ∧
    format_duration 3661000 = "01:01:01" ∧
    format_duration 0 = "00:00:00" ∧
    format_duration 59999 = "00:00:59" := by
  refine ⟨?_, by decide, by decide, by decide⟩
  show pad2 (ms / 1000 / 3600) ++ ":" ++ pad2 (ms / 1000 % 3600 / 60) ++ ":" ++
      pad2 (ms / 1000 % 3600 % 60) = _
  rw [Nat.mod_mod_of_dvd (ms / 1000) (by norm_num : (60:ℕ) ∣ 3600)]

/-- Claim C8: for every limit value, `geocode_suggestions` applied to a
query that is empty after trimming fails with the EmptyQuery message and
issues no network request (the request list is empty). -/
theorem c8_empty_query_no_network (query : String) (limit : Int)
    (net : GeoRequest → NetResult GeoData) (h : pyStrip query = "") :
    geocode_suggestions query limit net =
      ({ ok := false, hits := [], msg := "Empty location." }, []) := by
  unfold geocode_suggestions
  simp [h]

/-- Witness for C8: a whitespace-only query with an out-of-range limit. -/
theorem c8_witness :
    geocode_suggestions "   " 99 geoNetEx =
      ({ ok := false, hits := [], msg := "Empty location." }, []) :=
  c8_empty_query_no_network "   " 99 geoNetEx (by decide)

/-- Counterexample to claim C5 as stated: the input limit 0 is below 1,
but the limit actually sent to the geocoding endpoint is 5 (the Python
expression `limit or 5` replaces the falsy 0 by the default), not 1. -/
theorem c5_counterexample :
    (geocode_suggestions "Paris" 0 geoNetEx).2 =
      [{ q := "Paris", limit := 5, key := GRAPHOPPER_KEY }] ∧
    (geocode_suggestions "Paris" 0 geoNetEx).2 ≠
      [{ q := "Paris", limit := 1, key := GRAPHOPPER_KEY }] := by decide

/-- Claim C5 as amended: for every nonempty-after-trim query the request is
always sent (never rejected) and carries `clampedLimit limit`, which is the
input clamped to [1,10] for every nonzero input (below 1 becomes 1, above
10 becomes 10, in range unchanged), while the falsy input 0 becomes the
default 5. -/
theorem c5_limit_clamped (query : String) (limit : Int)
    (net : GeoRequest → NetResult GeoData) (hq : pyStrip query ≠ "") :
    (geocode_suggestions query limit net).2 =
      [{ q := pyStrip query, limit := clampedLimit limit, key := GRAPHOPPER_KEY }] ∧
    (limit < 1 → limit ≠ 0 → clampedLimit limit = 1) ∧
    (10 < limit → clampedLimit limit = 10) ∧
    (1 ≤ limit → limit ≤ 10 → clampedLimit limit = limit) ∧
    clampedLimit 0 = 5 := by
  refine ⟨?_, ?_, ?_, ?_, by decide⟩
  · rcases hn : net { q := pyStrip query, limit := clampedLimit limit, key := GRAPHOPPER_KEY } with
      ⟨status, text, body⟩ | e <;>
      simp only [geocode_suggestions, if_neg hq, hn] <;>
      split <;> (try split) <;> rfl
  · intro h1 h0
    unfold clampedLimit
    rw [if_neg h0]
    omega
  · intro h1
    unfold clampedLimit
    have : limit ≠ 0 := by omega
    rw [if_neg this]
    omega
  · intro h1 h2
    unfold clampedLimit
    have : limit ≠ 0 := by omega
    rw [if_neg this]
    omega

/-- Witness for C5 amended: a limit below 1 (and nonzero) is sent as 1. -/
theorem c5_witness : clampedLimit (-7) = 1 :=
  (c5_limit_clamped "Paris" (-7) geoNetEx (by decide)).2.1 (by decide) (by decide)

/-- Counterexample to claim C1 as stated: on the empty waypoint list
`route_points` does not fail with InsufficientWaypoints, it issues a
network request and, when the service answers 200 with a path, even
succeeds. -/
theorem c1_counterexample :
    (route_points [] "car" routeNetOk).1.ok = true ∧
    (route_points [] "car" routeNetOk).1.msg = "" ∧
    (route_points [] "car" routeNetOk).2 ≠ [] := by decide

/-- Claim C1 as amended: the waypoint-count guard lives in the GUI caller,
`calculate_route`, which returns `none` (warning, no call to
`route_points`) whenever fewer than 2 locations are selected, while
`route_points` itself performs no count check and issues exactly one
network request for every waypoint list. -/
theorem c1_guard_and_request (locations : List GuiLocation) (points : List (ℚ × ℚ))
    (vehicle : String) (net : List (String × String) → NetResult RouteData)
    (h : locations.length < 2) :
    calculate_route locations = none ∧
    (route_points points vehicle net).2 = [routeParams points vehicle] := by
  constructor
  · unfold calculate_route
    rw [if_pos h]
  · rcases hn : net (routeParams points vehicle) with ⟨status, text, body⟩ | e <;>
      simp only [route_points, hn] <;> split <;> (try split) <;> rfl

/-- Witness for C1 amended: the empty location list is refused by the GUI
guard, and the underlying request list of `route_points` is the singleton
request. -/
theorem c1_witness :
    calculate_route [] = none ∧
    (route_points [] "car" routeNetOk).2 = [routeParams [] "car"] :=
  c1_guard_and_request [] [] "car" routeNetOk (by decide)

/-- Counterexample to claim C2 as stated: a received response with the 2xx
status 201 and an empty paths array is classified by the HTTP-status
branch (`status != 200`), producing the TransportError-style message, not
the NoRouteFound message the claim requires for every 2xx status. -/
theorem c2_counterexample :
    (route_points [] "car" (fun _ => .response 201 "" { paths := some [] })).1.msg =
      "Route HTTP 201: " ∧
    (route_points [] "car" (fun _ => .response 201 "" { paths := some [] })).1.msg ≠
      "No route found for the given points." ∧
    (route_points [] "car" (fun _ => .response 201 "" { paths := some [] })).1.ok = false := by
  decide

/-- Claim C2 as amended: for every routing response with HTTP status
exactly 200 whose paths collection is empty or absent, `route_points`
fails with the NoRouteFound message (a fixed string distinct from the
TransportError form) and returns no data object. -/
theorem c2_no_route_found (points : List (ℚ × ℚ)) (vehicle text : String) (body : RouteData)
    (h : truthyPaths body = false) :
    (route_points points vehicle (fun _ => .response 200 text body)).1 =
      { ok := false, data := none, msg := "No route found for the given points." } := by
  unfold route_points
  simp [h]

/-- Witness for C2 amended: a 200 response with an explicitly empty paths
array. -/
theorem c2_witness :
    (route_points [] "car" (fun _ => .response 200 "" { paths := some [] })).1 =
      { ok := false, data := none, msg := "No route found for the given points." } :=
  c2_no_route_found [] "car" "" { paths := some [] } (by decide)

/-- Helper: joinSep of a nonempty list of nonempty strings is nonempty. -/
theorem joinSep_ne_empty (sep : String) (l : List String) (hl : l ≠ [])
    (h : ∀ x ∈ l, x ≠ "") : joinSep sep l ≠ "" := by
  match l with
  | [] => exact absurd rfl hl
  | [x] => exact h x (by simp)
  | x :: y :: xs =>
      show x ++ sep ++ joinSep sep (y :: xs) ≠ ""
      exact str_append_ne_empty _ _ (str_append_ne_empty _ _ (h x (by simp)))

/-- Counterexample to claim C4 as stated: for a hit whose name key is
absent but whose city is "Y", under query "Paris" the code yields
"Paris, Y" (the query is substituted for the missing name before the
join), whereas the claimed formula (join of the non-empty hit fields)
yields "Y". -/
theorem c4_counterexample :
    format_hit_display hitCityOnly "Paris" = "Paris, Y" ∧
    formatHitDisplayClaimed hitCityOnly "Paris" = "Y" ∧
    format_hit_display hitCityOnly "Paris" ≠ formatHitDisplayClaimed hitCityOnly "Paris" := by
  decide

/-- Claim C4 as amended: the display name is the comma-space join of the
non-empty values among the name field with the query substituted when the
name key is absent, city, state and country; when that list is empty the
result is the query. In particular a hit with only name "X" yields "X" and
a hit with no fields at all under query "Paris" yields "Paris". -/
theorem c4_display_name (hit : RawHit) (query : String) :
    format_hit_display hit query = formatHitDisplayAmended hit query ∧
    format_hit_display
      { name := some "X", city := none, state := none, country := none, point := none }
      "Paris" = "X" ∧
    format_hit_display
      { name := none, city := none, state := none, country := none, point := none }
      "Paris" = "Paris" := by
  refine ⟨?_, by decide, by decide⟩
  simp only [format_hit_display, formatHitDisplayAmended]
  set name := hit.name.getD query with hname
  set parts := [name, hit.city.getD "", hit.state.getD "", hit.country.getD ""].filter
    (fun v => v != "") with hparts
  by_cases hp : parts = []
  · have hn : name = "" := by
      have := List.filter_eq_nil_iff.mp hp name (by simp)
      simpa using this
    rw [hp]
    simp [joinSep, hn]
  · have hne : joinSep ", " parts ≠ "" := by
      apply joinSep_ne_empty _ _ hp
      intro x hx
      have := (List.mem_filter.mp hx).2
      simpa using this
    simp [hne, hp]

/-- Claim C7: the summary kilometres are distance metres over 1000, the
summary miles are kilometres over the fixed constant 1.60934, and each
instruction step displays its own metres over 1000 independently of the
path total; in particular 10000 m gives exactly 10 km (displayed 10.00)
and 6.21 mi after rounding to two decimals. Real arithmetic is modelled
exactly over the rationals. -/
theorem c7_distance_conversion (p : RoutePath) (s : RouteInstr) :
    summary_km p = p.distance / 1000 ∧
    summary_miles p = summary_km p / (160934 / 100000 : ℚ) ∧
    instruction_km s = s.distance.getD 0 / 1000 ∧
    summary_km demoPath = 10 ∧
    round2 (summary_km demoPath) = 10 ∧
    round2 (summary_miles demoPath) = 621 / 100 := by
  refine ⟨rfl, rfl, rfl, ?_, ?_, ?_⟩
  · norm_num [summary_km, demoPath]
  · norm_num [round2, summary_km, demoPath]
  · norm_num [round2, summary_miles, summary_km, MILE_FACTOR, demoPath]

/-- Claim C9: the routing request built by `route_points` (and sent as its
single network request) carries the unencoded-points flag, and its point
parameters are exactly one coordinate pair per waypoint in input order,
with no reordering, deduplication or omission. -/
theorem c9_route_request_shape (points : List (ℚ × ℚ)) (vehicle : String)
    (net : List (String × String) → NetResult RouteData) :
    ("points_encoded", "false") ∈ routeParams points vehicle ∧
    (routeParams points vehicle).filter (fun kv => kv.1 == "point") =
      points.map (fun p => ("point", coordStr p.1 p.2)) ∧
    (route_points points vehicle net).2 = [routeParams points vehicle] := by
  refine ⟨?_, ?_, ?_⟩
  · unfold routeParams
    simp
  · unfold routeParams
    rw [List.filter_append]
    have h1 : ([("key", GRAPHOPPER_KEY), ("vehicle", vehicle),
        ("points_encoded", "false")].filter (fun kv => kv.1 == "point")) = [] := rfl
    rw [h1, List.nil_append]
    apply List.filter_eq_self.mpr
    intro a ha
    rcases List.mem_map.mp ha with ⟨pt, _, hpt⟩
    rw [← hpt]
    rfl
  · rcases hn : net (routeParams points vehicle) with ⟨status, text, body⟩ | e <;>
      simp only [route_points, hn] <;> split <;> (try split) <;> rfl

/-- Claim C3: for every nonempty-after-trim query and limit in [1,10],
when the geocoding endpoint answers 200, `geocode_suggestions` either
fails with the NoResults message carrying the query (exactly when zero raw
hits survive the coordinate filter) or succeeds with the nonempty list of
surviving hits, each of which has both coordinates set; never an empty
success. -/
theorem c3_resolve_dichotomy (query : String) (limit : Int) (text : String) (body : GeoData)
    (hq : pyStrip query ≠ "") (h1 : 1 ≤ limit) (h2 : limit ≤ 10) :
    ((geocode_suggestions query limit (fun _ => .response 200 text body)).1.ok = false ∧
     (geocode_suggestions query limit (fun _ => .response 200 text body)).1.hits = [] ∧
     (geocode_suggestions query limit (fun _ => .response 200 text body)).1.msg =
       "No geocoding results for \x27" ++ pyStrip query ++ "\x27." ∧
     (body.hits.getD []).filter hasCoords = []) ∨
    ((geocode_suggestions query limit (fun _ => .response 200 text body)).1.ok = true ∧
     (geocode_suggestions query limit (fun _ => .response 200 text body)).1.hits ≠ [] ∧
     (geocode_suggestions query limit (fun _ => .response 200 text body)).1.hits =
       ((body.hits.getD []).filter hasCoords).map (mkGeoHit (pyStrip query)) ∧
     ∀ h ∈ (geocode_suggestions query limit (fun _ => .response 200 text body)).1.hits,
       h.lat.isSome = true ∧ h.lng.isSome = true) := by
  by_cases hf : ((body.hits.getD []).filter hasCoords).map (mkGeoHit (pyStrip query)) = []
  · left
    have hres : (geocode_suggestions query limit (fun _ => .response 200 text body)).1 =
        { ok := false, hits := []
          msg := "No geocoding results for \x27" ++ pyStrip query ++ "\x27." } := by
      simp only [geocode_suggestions, if_neg hq]
      simp [hf]
    refine ⟨by rw [hres], by rw [hres], by rw [hres], by simpa using hf⟩
  · right
    have hres : (geocode_suggestions query limit (fun _ => .response 200 text body)).1 =
        { ok := true
          hits := ((body.hits.getD []).filter hasCoords).map (mkGeoHit (pyStrip query))
          msg := "" } := by
      simp only [geocode_suggestions, if_neg hq]
      simp [hf]
    refine ⟨by rw [hres], by rw [hres]; exact hf, by rw [hres], ?_⟩
    rw [hres]
    intro h hh
    rcases List.mem_map.mp hh with ⟨r, hr, hmk⟩
    have hc : hasCoords r = true := (List.mem_filter.mp hr).2
    rw [hasCoords, Bool.and_eq_true] at hc
    rw [← hmk]
    exact ⟨hc.1, hc.2⟩

/-- Witness for C3: one fully-coordinated hit under query "Paris" lands in
the success branch. -/
theorem c3_witness :
    (geocode_suggestions "Paris" 5 (fun _ => .response 200 "" geoBodyOne)).1.ok = true := by
  rcases c3_resolve_dichotomy "Paris" 5 "" geoBodyOne (by decide) (by decide) (by decide)
    with h | h
  · exact absurd h.2.2.2 (by decide)
  · exact h.1

/-- Claim C10: every result of `geocode_suggestions` or `route_points` is
internally consistent: ok true implies an empty message and a non-empty
payload (non-empty hits, or a data object whose paths array is present and
non-empty), and ok false implies a non-empty message and no payload (empty
hits; no data object). -/
theorem c10_result_consistency :
    (∀ (query : String) (limit : Int) (net : GeoRequest → NetResult GeoData),
      ((geocode_suggestions query limit net).1.ok = true →
        (geocode_suggestions query limit net).1.msg = "" ∧
        (geocode_suggestions query limit net).1.hits ≠ []) ∧
      ((geocode_suggestions query limit net).1.ok = false →
        (geocode_suggestions query limit net).1.msg ≠ "" ∧
        (geocode_suggestions query limit net).1.hits = [])) ∧
    (∀ (points : List (ℚ × ℚ)) (vehicle : String)
        (net : List (String × String) → NetResult RouteData),
      ((route_points points vehicle net).1.ok = true →
        (route_points points vehicle net).1.msg = "" ∧
        ∃ d l, (route_points points vehicle net).1.data = some d ∧
          d.paths = some l ∧ l ≠ []) ∧
      ((route_points points vehicle net).1.ok = false →
        (route_points points vehicle net).1.msg ≠ "" ∧
        (route_points points vehicle net).1.data = none)) := by
  constructor
  · intro query limit net
    by_cases hq : pyStrip query = ""
    · have hres : (geocode_suggestions query limit net).1 =
          { ok := false, hits := [], msg := "Empty location." } := by
        simp [geocode_suggestions, hq]
      rw [hres]
      exact ⟨fun h => by simp at h, fun _ => ⟨by decide, rfl⟩⟩
    · rcases hn : net ⟨pyStrip query, clampedLimit limit, GRAPHOPPER_KEY⟩ with
        ⟨status, text, body⟩ | e
      · by_cases hs : status = 200
        · by_cases hf : ((body.hits.getD []).filter hasCoords).map (mkGeoHit (pyStrip query)) = []
          · have hres : (geocode_suggestions query limit net).1 =
                { ok := false, hits := []
                  msg := "No geocoding results for \x27" ++ pyStrip query ++ "\x27." } := by
              simp only [geocode_suggestions, if_neg hq, hn]
              simp [hs, hf]
            rw [hres]
            refine ⟨fun h => by simp at h, fun _ => ⟨?_, rfl⟩⟩
            exact str_append_ne_empty _ _ (str_append_ne_empty _ _ (by decide))
          · have hres : (geocode_suggestions query limit net).1 =
                { ok := true
                  hits := ((body.hits.getD []).filter hasCoords).map (mkGeoHit (pyStrip query))
                  msg := "" } := by
              simp only [geocode_suggestions, if_neg hq, hn]
              simp [hs, hf]
            rw [hres]
            exact ⟨fun _ => ⟨rfl, hf⟩, fun h => by simp at h⟩
        · have hres : (geocode_suggestions query limit net).1 =
              { ok := false, hits := []
                msg := "Geocode HTTP " ++ toString status ++ ": " ++ strTake text 200 } := by
            simp only [geocode_suggestions, if_neg hq, hn]
            simp [hs]
          rw [hres]
          refine ⟨fun h => by simp at h, fun _ => ⟨?_, rfl⟩⟩
          exact str_append_ne_empty _ _
            (str_append_ne_empty _ _ (str_append_ne_empty _ _ (by decide)))
      · have hres : (geocode_suggestions query limit net).1 =
            { ok := false, hits := [], msg := "Geocode error: " ++ e } := by
          simp only [geocode_suggestions, if_neg hq, hn]
        rw [hres]
        exact ⟨fun h => by simp at h, fun _ => ⟨str_append_ne_empty _ _ (by decide), rfl⟩⟩
  · intro points vehicle net
    rcases hn : net (routeParams points vehicle) with ⟨status, text, body⟩ | e
    · by_cases hs : status = 200
      · by_cases hp : truthyPaths body = false
        · have hres : (route_points points vehicle net).1 =
              { ok := false, data := none, msg := "No route found for the given points." } := by
            simp only [route_points, hn]
            simp [hs, hp]
          rw [hres]
          exact ⟨fun h => by simp at h, fun _ => ⟨by decide, rfl⟩⟩
        · have hres : (route_points points vehicle net).1 =
              { ok := true, data := some body, msg := "" } := by
            simp only [route_points, hn]
            simp [hs, hp]
          rw [hres]
          refine ⟨fun _ => ⟨rfl, ?_⟩, fun h => by simp at h⟩
          rcases hb : body.paths with _ | l
          · exfalso; apply hp; simp [truthyPaths, hb]
          · rcases l with _ | ⟨a, as⟩
            · exfalso; apply hp; simp [truthyPaths, hb]
            · exact ⟨body, a :: as, rfl, hb, by simp⟩
      · have hres : (route_points points vehicle net).1 =
            { ok := false, data := none
              msg := "Route HTTP " ++ toString status ++ ": " ++ strTake text 200 } := by
          simp only [route_points, hn]
          simp [hs]
        rw [hres]
        refine ⟨fun h => by simp at h, fun _ => ⟨?_, rfl⟩⟩
        exact str_append_ne_empty _ _
          (str_append_ne_empty _ _ (str_append_ne_empty _ _ (by decide)))
    · have hres : (route_points points vehicle net).1 =
          { ok := false, data := none, msg := "Route error: " ++ e } := by
        simp only [route_points, hn]
      rw [hres]
      exact ⟨fun h => by simp at h, fun _ => ⟨str_append_ne_empty _ _ (by decide), rfl⟩⟩

/-- Witness for C10: the empty-query failure has a non-empty message and
an empty hits list. -/
theorem c10_witness :
    (geocode_suggestions "" 5 geoNetEx).1.msg ≠ "" ∧
    (geocode_suggestions "" 5 geoNetEx).1.hits = [] :=
  (c10_result_consistency.1 "" 5 geoNetEx).2 (by decide)
